import Mathlib

/-!
Shallow embedding of `src/src/libopensc/reader-openct.c` (the OpenCT reader
backend of OpenSC) and proofs about its operations.

The external OpenCT daemon API (`ct_reader_info`, `ct_reader_connect`,
`ct_card_request`, `ct_card_transact`, `ct_card_verify`, `ct_card_lock`,
`ct_card_unlock`) is modelled as an oracle structure `Transport` of pure
functions; the driver's mutable state (`struct driver_data`, `sc_slot_info`,
`struct slot_data`) is threaded explicitly.  Each driver operation also
returns the list of transport calls it issued, so that "issues no transport
call" is a statement about that trace.  C pointers that may be NULL are
modelled as `Nat` with `0` playing the role of NULL (matching the C tests
`if (data->h)` / `if (!(data->h = ct_reader_connect(...)))`).
-/

/-! ### Constants

`SC_*` error codes come from OpenSC's `errors.h` and `opensc.h`, which are
part of the repository but not under `src/`; their exact numeric values are
modelled from the spec's error taxonomy (§7): all are distinct negative
codes (`ReaderReattached` included, since the spec says it propagates to
callers through `rc < 0` checks).  `IFD_*` codes come from the external
OpenCT library headers: distinct negative failure codes with a distinguished
"not connected" sentinel. -/

def SC_NO_ERROR : Int := 0
def SC_ERROR_READER : Int := -1101
def SC_ERROR_KEYPAD_CANCELLED : Int := -1102
def SC_ERROR_KEYPAD_TIMEOUT : Int := -1103
def SC_ERROR_READER_DETACHED : Int := -1108
def SC_ERROR_READER_REATTACHED : Int := -1109
def SC_ERROR_TRANSMIT_FAILED : Int := -1213
def SC_ERROR_UNKNOWN_DATA_RECEIVED : Int := -1214
def SC_ERROR_CARD_NOT_PRESENT : Int := -1211
def SC_ERROR_OUT_OF_MEMORY : Int := -1300
def SC_ERROR_INVALID_ARGUMENTS : Int := -1301
def SC_ERROR_BUFFER_TOO_SMALL : Int := -1304

def IFD_ERROR_NOT_CONNECTED : Int := -8
def IFD_ERROR_USER_TIMEOUT : Int := -11
def IFD_ERROR_USER_ABORT : Int := -12
def IFD_LOCK_EXCLUSIVE : Nat := 1

def SC_PIN_ENCODING_ASCII : Nat := 0
def SC_PIN_ENCODING_BCD : Nat := 1
def IFD_PIN_ENCODING_ASCII : Nat := 0
def IFD_PIN_ENCODING_BCD : Nat := 1

def SC_SLOT_CAP_DISPLAY : Nat := 1
def SC_SLOT_CAP_PIN_PAD : Nat := 2

/-- Preallocation count, from reader-openct.c (PREALLOCATE is 5). -/
def PREALLOCATE : Nat := 5
/-- Maximum reader count, from the external OpenCT headers. -/
def OPENCT_MAX_READERS : Nat := 16
/-- Maximum slot count, from OpenSC's headers (not under src/). -/
def SC_MAX_SLOTS : Nat := 4
/-- Size of the `slot->atr` array: OpenSC's maximum ATR size. -/
def SC_MAX_ATR_SIZE : Nat := 33

/-! ### Data model -/

/-- Reader metadata advertised by the OpenCT daemon (`ct_info_t`). -/
structure CtInfo where
  ct_name : String
  ct_slots : Nat
  ct_display : Bool
  ct_keypad : Bool
deriving Repr, DecidableEq

/-- Embedding of `struct driver_data`, the driver's per-reader private state.
`h` is the transport handle pointer; `0` models NULL (unconnected). -/
structure DriverData where
  h : Nat
  num : Nat
  info : CtInfo
deriving Repr, DecidableEq

/-- The fields of `struct sc_slot_info` used by this driver. -/
structure SlotInfo where
  id : Nat
  atr : List Nat
  atr_len : Nat
  capabilities : Nat
  flags : Nat
deriving Repr, DecidableEq

/-- Embedding of `struct slot_data`: per-slot lock-handle storage. -/
structure SlotData where
  excl_lock : Nat
  shared_lock : Nat
deriving Repr, DecidableEq

/-- The fields of `struct sc_apdu` used by `openct_reader_perform_verify`. -/
structure ApduTemplate where
  cla : Nat
  ins : Nat
  p1 : Nat
  p2 : Nat
  lc : Nat
  data : List Nat
  sw1 : Nat
  sw2 : Nat
deriving Repr, DecidableEq

/-- The `pin1` part of `struct sc_pin_cmd_data` used by the driver. -/
structure PinInfo where
  min_length : Nat
  max_length : Nat
  encoding : Nat
  prompt : Option String
  offset : Nat
deriving Repr, DecidableEq

/-- Embedding of `struct sc_pin_cmd_data`, restricted to the fields the driver reads;
`apdu = none` models a NULL `info->apdu` pointer. -/
structure PinCmdData where
  apdu : Option ApduTemplate
  pin1 : PinInfo
deriving Repr, DecidableEq

/-- One call into the OpenCT transport library, for call-trace bookkeeping. -/
inductive CtCall where
  | readerConnect (num : Nat)
  | readerDisconnect (h : Nat)
  | cardRequest (h slotId : Nat)
  | cardTransact (h slotId : Nat)
  | cardVerify (h slotId : Nat)
  | cardLock (h slotId : Nat)
  | cardUnlock (h slotId : Nat)
deriving Repr, DecidableEq

/-- The OpenCT transport collaborator, as a deterministic oracle.
Each function returns what the corresponding `ct_*` call would return;
out-parameter buffers are modelled by returning the bytes written.
`reader_connect` returns a handle, with `0` modelling NULL (failure). -/
structure Transport where
  reader_info : Nat → Option CtInfo
  reader_connect : Nat → Nat
  card_request : Nat → Nat → Int × List Nat
  card_transact : Nat → Nat → List Nat → Nat → Int × List Nat
  card_verify : Nat → Nat → Nat → Nat → Nat → List Nat → Nat → Int × List Nat
  card_lock : Nat → Nat → Nat → Int × Nat
  card_unlock : Nat → Nat → Nat → Int

/-! ### Connection Manager -/

/-- Result of `openct_reader_connect` / `openct_reader_reconnect`. -/
structure ConnResult where
  rc : Int
  st : DriverData
  slot : SlotInfo
  calls : List CtCall
deriving Repr

/-- Embedding of `openct_reader_connect` (reader-openct.c:210-243): tear down any live
handle, request a fresh one keyed by the reader index (NULL → handle `0` →
`SC_ERROR_CARD_NOT_PRESENT`), then issue a slot-0-style card request for the
ATR: negative → `SC_ERROR_CARD_NOT_PRESENT`, zero → `SC_ERROR_READER`,
positive count → store it in `atr_len` and succeed. -/
def openct_reader_connect (T : Transport) (st : DriverData) (slot : SlotInfo) :
    ConnResult :=
  let pre : List CtCall := if st.h ≠ 0 then [CtCall.readerDisconnect st.h] else []
  let h := T.reader_connect st.num
  let st1 : DriverData := { st with h := h }
  if h = 0 then
    { rc := SC_ERROR_CARD_NOT_PRESENT, st := st1, slot := slot,
      calls := pre ++ [CtCall.readerConnect st.num] }
  else
    let req := T.card_request h slot.id
    let calls := pre ++ [CtCall.readerConnect st.num, CtCall.cardRequest h slot.id]
    let slot1 : SlotInfo := { slot with atr := req.2.take SC_MAX_ATR_SIZE }
    if req.1 < 0 then
      { rc := SC_ERROR_CARD_NOT_PRESENT, st := st1, slot := slot1, calls := calls }
    else if req.1 = 0 then
      { rc := SC_ERROR_READER, st := st1, slot := slot1, calls := calls }
    else
      { rc := SC_NO_ERROR, st := st1,
        slot := { slot1 with atr_len := req.1.toNat }, calls := calls }

/-- Embedding of `openct_reader_reconnect` (reader-openct.c:245-258): no-op returning `0`
when a handle is live; otherwise run `openct_reader_connect` and report
`SC_ERROR_READER_DETACHED` on failure, `SC_ERROR_READER_REATTACHED` on
success. -/
def openct_reader_reconnect (T : Transport) (st : DriverData) (slot : SlotInfo) :
    ConnResult :=
  if st.h ≠ 0 then
    { rc := 0, st := st, slot := slot, calls := [] }
  else
    let c := openct_reader_connect T st slot
    if c.rc < 0 then
      { c with rc := SC_ERROR_READER_DETACHED }
    else
      { c with rc := SC_ERROR_READER_REATTACHED }

/-- Embedding of `openct_reader_disconnect` (reader-openct.c:260-271). -/
def openct_reader_disconnect (st : DriverData) : Int × DriverData × List CtCall :=
  let calls : List CtCall := if st.h ≠ 0 then [CtCall.readerDisconnect st.h] else []
  (SC_NO_ERROR, { st with h := 0 }, calls)

/-- Embedding of `openct_error` (reader-openct.c:414-428): translate an OpenCT status
code into the driver taxonomy.  Non-negative codes pass through; the
user-timeout and user-abort sentinels get dedicated keypad codes; any other
negative code becomes the generic `SC_ERROR_READER`.  (The C function also
takes the reader pointer but never reads it.) -/
def openct_error (code : Int) : Int :=
  if 0 ≤ code then
    code
  else if code = IFD_ERROR_USER_TIMEOUT then
    SC_ERROR_KEYPAD_TIMEOUT
  else if code = IFD_ERROR_USER_ABORT then
    SC_ERROR_KEYPAD_CANCELLED
  else
    SC_ERROR_READER

/-! ### Transmission Engine -/

/-- The transport writing `resp` into the caller's buffer `buf`: the written
bytes overwrite the prefix.  If `resp` is longer than `buf` the result grows
past the original capacity, modelling an out-of-bounds write. -/
def writeBytes (buf resp : List Nat) : List Nat :=
  resp ++ buf.drop resp.length

/-- Result of `openct_reader_transmit`: the translated return code, the
updated driver state and slot, the caller's receive buffer after the call,
the value of `*recvsize` after the call, and the transport-call trace. -/
structure TransmitResult where
  rc : Int
  st : DriverData
  slot : SlotInfo
  recvbuf : List Nat
  recvsize : Nat
  calls : List CtCall
deriving Repr

/-- Embedding of `openct_reader_transmit` (reader-openct.c:273-300): hotplug check first
(propagating any negative result verbatim); then `ct_card_transact` with
`*recvsize` as the receive capacity; the "not connected" sentinel tears the
connection down and yields `SC_ERROR_READER_DETACHED`; a non-negative result
is stored into `*recvsize`; the raw result goes through `openct_error`. -/
def openct_reader_transmit (T : Transport) (st : DriverData) (slot : SlotInfo)
    (sendbuf : List Nat) (recvbuf : List Nat) (recvsize : Nat) : TransmitResult :=
  let r := openct_reader_reconnect T st slot
  if r.rc < 0 then
    { rc := r.rc, st := r.st, slot := r.slot, recvbuf := recvbuf,
      recvsize := recvsize, calls := r.calls }
  else
    let tr := T.card_transact r.st.h slot.id sendbuf recvsize
    let buf1 := writeBytes recvbuf tr.2
    let calls := r.calls ++ [CtCall.cardTransact r.st.h slot.id]
    if tr.1 = IFD_ERROR_NOT_CONNECTED then
      { rc := SC_ERROR_READER_DETACHED, st := { r.st with h := 0 },
        slot := r.slot, recvbuf := buf1, recvsize := recvsize,
        calls := calls ++ [CtCall.readerDisconnect r.st.h] }
    else
      { rc := openct_error tr.1, st := r.st, slot := r.slot, recvbuf := buf1,
        recvsize := if 0 ≤ tr.1 then tr.1.toNat else recvsize,
        calls := calls }

/-! ### PIN Verification Builder -/

/-- Result of `openct_reader_perform_verify`. -/
structure VerifyResult where
  rc : Int
  st : DriverData
  slot : SlotInfo
  info : PinCmdData
  calls : List CtCall
deriving Repr

/-- Embedding of `openct_reader_perform_verify` (reader-openct.c:302-362): hotplug check
first (propagating any negative result verbatim); a NULL apdu is an
invalid-argument failure; the frame is `[cla, ins, p1, p2]` plus, when `lc`
is non-zero, `[lc, data...]` guarded by `j + 1 + lc > 254` →
`SC_ERROR_BUFFER_TOO_SMALL`; the PIN length is fixed only when the policy's
min and max agree; an encoding outside {ASCII, BCD} is an invalid-argument
failure; then `ct_card_verify` runs and the response must be exactly the two
status bytes. -/
def openct_reader_perform_verify (T : Transport) (st : DriverData)
    (slot : SlotInfo) (info : PinCmdData) : VerifyResult :=
  let r := openct_reader_reconnect T st slot
  if r.rc < 0 then
    { rc := r.rc, st := r.st, slot := r.slot, info := info, calls := r.calls }
  else
    match info.apdu with
    | none =>
      { rc := SC_ERROR_INVALID_ARGUMENTS, st := r.st, slot := r.slot,
        info := info, calls := r.calls }
    | some apdu =>
      let hdr := [apdu.cla % 256, apdu.ins % 256, apdu.p1 % 256, apdu.p2 % 256]
      if apdu.lc ≠ 0 ∧ 4 + 1 + apdu.lc > 254 then
        { rc := SC_ERROR_BUFFER_TOO_SMALL, st := r.st, slot := r.slot,
          info := info, calls := r.calls }
      else
        let frame :=
          if apdu.lc ≠ 0 then hdr ++ [apdu.lc % 256] ++ apdu.data.take apdu.lc
          else hdr
        let pin_length :=
          if info.pin1.min_length = info.pin1.max_length then
            info.pin1.min_length
          else 0
        if info.pin1.encoding = SC_PIN_ENCODING_ASCII ∨
           info.pin1.encoding = SC_PIN_ENCODING_BCD then
          let pin_encoding :=
            if info.pin1.encoding = SC_PIN_ENCODING_ASCII then
              IFD_PIN_ENCODING_ASCII
            else IFD_PIN_ENCODING_BCD
          let v := T.card_verify r.st.h slot.id pin_encoding pin_length
                     info.pin1.offset frame 254
          let calls := r.calls ++ [CtCall.cardVerify r.st.h slot.id]
          if v.1 < 0 then
            { rc := openct_error v.1, st := r.st, slot := r.slot,
              info := info, calls := calls }
          else if v.1 ≠ 2 then
            { rc := SC_ERROR_UNKNOWN_DATA_RECEIVED, st := r.st, slot := r.slot,
              info := info, calls := calls }
          else
            let apdu1 := { apdu with sw1 := v.2.headD 0,
                                     sw2 := (v.2.drop 1).headD 0 }
            { rc := 0, st := r.st, slot := r.slot,
              info := { info with apdu := some apdu1 }, calls := calls }
        else
          { rc := SC_ERROR_INVALID_ARGUMENTS, st := r.st, slot := r.slot,
            info := info, calls := r.calls }

/-! ### Lock Coordinator -/

/-- Result of `openct_reader_lock` / `openct_reader_unlock`. -/
structure LockResult where
  rc : Int
  st : DriverData
  slot : SlotInfo
  sd : SlotData
  calls : List CtCall
deriving Repr

/-- Embedding of `openct_reader_lock` (reader-openct.c:365-390): hotplug check first,
then request an exclusive lock, storing the returned handle in the slot's
`excl_lock`; "not connected" tears the connection down and yields
`SC_ERROR_READER_DETACHED`; other results go through `openct_error`. -/
def openct_reader_lock (T : Transport) (st : DriverData) (slot : SlotInfo)
    (sd : SlotData) : LockResult :=
  let r := openct_reader_reconnect T st slot
  if r.rc < 0 then
    { rc := r.rc, st := r.st, slot := r.slot, sd := sd, calls := r.calls }
  else
    let lk := T.card_lock r.st.h slot.id IFD_LOCK_EXCLUSIVE
    let sd1 : SlotData := { sd with excl_lock := lk.2 }
    let calls := r.calls ++ [CtCall.cardLock r.st.h slot.id]
    if lk.1 = IFD_ERROR_NOT_CONNECTED then
      { rc := SC_ERROR_READER_DETACHED, st := { r.st with h := 0 },
        slot := r.slot, sd := sd1,
        calls := calls ++ [CtCall.readerDisconnect r.st.h] }
    else
      { rc := openct_error lk.1, st := r.st, slot := r.slot, sd := sd1,
        calls := calls }

/-- Embedding of `openct_reader_unlock` (reader-openct.c:392-409): release using the
stored exclusive-lock handle; a "not connected" response returns plain
success (`/* We couldn't care less */`); other results go through
`openct_error`.  Note: no hotplug check, and the driver state is never
touched. -/
def openct_reader_unlock (T : Transport) (st : DriverData) (slot : SlotInfo)
    (sd : SlotData) : LockResult :=
  let rc := T.card_unlock st.h slot.id sd.excl_lock
  let calls := [CtCall.cardUnlock st.h slot.id]
  if rc = IFD_ERROR_NOT_CONNECTED then
    { rc := 0, st := st, slot := slot, sd := sd, calls := calls }
  else
    { rc := openct_error rc, st := st, slot := slot, sd := sd, calls := calls }

/-! ### Reader Registry -/

/-- The memory allocator as an oracle: `ok k` tells whether the `k`-th
`calloc`/`strdup` of the initialization sequence succeeds. -/
structure AllocOracle where
  ok : Nat → Bool

/-- One slot as set up by `openct_add_reader`; `drv_data_ok` records whether
the (unchecked) `calloc` of its `struct slot_data` succeeded. -/
structure SlotSetup where
  id : Nat
  drv_data_ok : Bool
  capabilities : Nat
deriving Repr, DecidableEq

/-- A reader as created by `openct_add_reader` and registered with the
context via `_sc_add_reader` (the latter is OpenSC core code outside this
file, modelled as always succeeding). -/
structure Reader where
  num : Nat
  name : String
  slot_count : Nat
  slots : List SlotSetup
deriving Repr, DecidableEq

/-- Embedding of `openct_add_reader` (reader-openct.c:103-148), threading the allocation
counter `k`.  Allocations, in program order: `calloc(reader)` (short-circuit:
on failure the second calloc is not reached), `calloc(data)`, `strdup(name)`
(unchecked), then `SC_MAX_SLOTS` slot-data callocs (unchecked).  Failure of
either checked calloc frees what was allocated and returns
`SC_ERROR_OUT_OF_MEMORY` with no reader created. -/
def openct_add_reader (A : AllocOracle) (k : Nat) (num : Nat)
    (info : Option CtInfo) : Int × Option Reader × Nat :=
  if !A.ok k then
    (SC_ERROR_OUT_OF_MEMORY, none, k + 1)
  else if !A.ok (k + 1) then
    (SC_ERROR_OUT_OF_MEMORY, none, k + 2)
  else
    let di : CtInfo :=
      match info with
      | some i => i
      | none => { ct_name := "OpenCT reader (detached)", ct_slots := 1,
                  ct_display := false, ct_keypad := false }
    let caps :=
      (if di.ct_display then SC_SLOT_CAP_DISPLAY else 0) |||
      (if di.ct_keypad then SC_SLOT_CAP_PIN_PAD else 0)
    let reader : Reader :=
      { num := num, name := di.ct_name, slot_count := di.ct_slots,
        slots := (List.range SC_MAX_SLOTS).map fun i =>
          { id := i, drv_data_ok := A.ok (k + 3 + i), capabilities := caps } }
    (0, some reader, k + 3 + SC_MAX_SLOTS)

/-- One iteration step of the `openct_reader_init` loop for reader index
`i`: call `openct_add_reader` when the daemon advertises the index or the
index is below `PREALLOCATE`; the return code of `openct_add_reader` is
discarded by the loop.  Returns the created reader (if any), the new
allocation counter, and whether the index was attempted at all. -/
def initStep (T : Transport) (A : AllocOracle) (i k : Nat) :
    Option Reader × Nat × Bool :=
  match T.reader_info i with
  | some info =>
    let r := openct_add_reader A k i (some info)
    (r.2.1, r.2.2, true)
  | none =>
    if i < PREALLOCATE then
      let r := openct_add_reader A k i none
      (r.2.1, r.2.2, true)
    else
      (none, k, false)

/-- The `openct_reader_init` loop over indices `[0, n)`, accumulating the
created readers, the attempted indices and the allocation counter. -/
def initLoop (T : Transport) (A : AllocOracle) :
    Nat → Nat → List Reader × List Nat × Nat
  | 0, k => ([], [], k)
  | n + 1, k =>
    let prev := initLoop T A n k
    let s := initStep T A n prev.2.2
    (prev.1 ++ s.1.toList, prev.2.1 ++ (if s.2.2 then [n] else []), s.2.1)

/-- Result of `openct_reader_init`. -/
structure InitResult where
  rc : Int
  readers : List Reader
  attempted : List Nat
deriving Repr

/-- Embedding of `openct_reader_init` (reader-openct.c:84-101): for every index below
`OPENCT_MAX_READERS`, create a reader from live daemon metadata, or a
placeholder when the index is below `PREALLOCATE`; the per-reader return
codes are discarded and the function always returns `SC_NO_ERROR`. -/
def openct_reader_init (T : Transport) (A : AllocOracle) : InitResult :=
  let l := initLoop T A OPENCT_MAX_READERS 0
  { rc := SC_NO_ERROR, readers := l.1, attempted := l.2.1 }


/-! ### Concrete fixtures used by witnesses and counterexamples -/

/-- A minimal reader-metadata value. -/
def infoDefault : CtInfo :=
  { ct_name := "r", ct_slots := 1, ct_display := false, ct_keypad := false }

/-- Slot 0 with empty ATR and no capabilities. -/
def slot0 : SlotInfo :=
  { id := 0, atr := [], atr_len := 0, capabilities := 0, flags := 0 }

/-- Empty per-slot lock storage. -/
def sd0 : SlotData := { excl_lock := 0, shared_lock := 0 }

/-- Driver state with a live handle (`h = 1`). -/
def stConn : DriverData := { h := 1, num := 0, info := infoDefault }

/-- Driver state with no handle (`h = 0`, i.e. NULL). -/
def stDisc : DriverData := { h := 0, num := 0, info := infoDefault }

/-- A transport whose connect fails and whose card primitives all report the
"not connected" sentinel. -/
def Tnc : Transport :=
  { reader_info := fun _ => none
    reader_connect := fun _ => 0
    card_request := fun _ _ => (0, [])
    card_transact := fun _ _ _ _ => (IFD_ERROR_NOT_CONNECTED, [])
    card_verify := fun _ _ _ _ _ _ _ => (IFD_ERROR_NOT_CONNECTED, [])
    card_lock := fun _ _ _ => (IFD_ERROR_NOT_CONNECTED, 0)
    card_unlock := fun _ _ _ => IFD_ERROR_NOT_CONNECTED }

/-- A transport where connecting yields handle 1, the card answers a 2-byte
ATR, and every card primitive reports 2 response bytes regardless of the
capacity it was given (so it violates its contract at capacity 1). -/
def Tre : Transport :=
  { reader_info := fun _ => none
    reader_connect := fun _ => 1
    card_request := fun _ _ => (2, [59, 0])
    card_transact := fun _ _ _ _ => (2, [144, 0])
    card_verify := fun _ _ _ _ _ _ _ => (2, [144, 0])
    card_lock := fun _ _ _ => (0, 7)
    card_unlock := fun _ _ _ => 0 }

/-- An allocator for which every allocation fails, in particular the very
first one. -/
def allocNone : AllocOracle := { ok := fun _ => false }

/-- An allocator for which every allocation succeeds. -/
def allocAllOk : AllocOracle := { ok := fun _ => true }

/-! ### Helper lemmas -/

/-- The return code of `openct_reader_connect` is one of the three codes in
the source: plain success, card-not-present, or reader error. -/
theorem connect_rc_cases (T : Transport) (st : DriverData) (slot : SlotInfo) :
    (openct_reader_connect T st slot).rc = SC_NO_ERROR ∨
    (openct_reader_connect T st slot).rc = SC_ERROR_CARD_NOT_PRESENT ∨
    (openct_reader_connect T st slot).rc = SC_ERROR_READER := by
  unfold openct_reader_connect
  by_cases h0 : T.reader_connect st.num = 0 <;>
    by_cases h1 : (T.card_request (T.reader_connect st.num) slot.id).1 < 0 <;>
      by_cases h2 : (T.card_request (T.reader_connect st.num) slot.id).1 = 0 <;>
        simp [h0, h1, h2]

/-- Every run of `openct_reader_connect` issues a `ct_reader_connect` call. -/
theorem connect_calls_has_connect (T : Transport) (st : DriverData)
    (slot : SlotInfo) :
    CtCall.readerConnect st.num ∈ (openct_reader_connect T st slot).calls := by
  unfold openct_reader_connect
  by_cases hp : st.h ≠ 0 <;>
    by_cases h0 : T.reader_connect st.num = 0 <;>
      by_cases h1 : (T.card_request (T.reader_connect st.num) slot.id).1 < 0 <;>
        by_cases h2 : (T.card_request (T.reader_connect st.num) slot.id).1 = 0 <;>
          simp [hp, h0, h1, h2]

/-- On a live handle, `openct_reader_reconnect` is a pure no-op. -/
theorem reconnect_noop (T : Transport) (st : DriverData) (slot : SlotInfo)
    (hh : st.h ≠ 0) :
    openct_reader_reconnect T st slot =
      { rc := 0, st := st, slot := slot, calls := [] } := by
  unfold openct_reader_reconnect
  rw [if_pos hh]

/-- Without a live handle, `openct_reader_reconnect` reduces to the result
of `openct_reader_connect` with the rc replaced by detached/reattached. -/
theorem reconnect_of_disconnected (T : Transport) (st : DriverData)
    (slot : SlotInfo) (hz : st.h = 0) :
    openct_reader_reconnect T st slot =
      if (openct_reader_connect T st slot).rc < 0 then
        { openct_reader_connect T st slot with rc := SC_ERROR_READER_DETACHED }
      else
        { openct_reader_connect T st slot with
            rc := SC_ERROR_READER_REATTACHED } := by
  simp only [openct_reader_reconnect]
  rw [if_neg (by simp [hz])]

/-- Negative codes stay negative through `openct_error`. -/
theorem openct_error_neg {code : Int} (h : code < 0) : openct_error code < 0 := by
  unfold openct_error
  split
  · omega
  · split
    · decide
    · split
      · decide
      · decide

/-- Length of a transport write into a buffer. -/
theorem writeBytes_length (buf resp : List Nat) :
    (writeBytes buf resp).length = max resp.length buf.length := by
  simp [writeBytes]
  omega

/-! ### Claims -/

/-- C8: the error translator is a total function on integer codes: every
non-negative code is returned unchanged; the user-timeout code maps to the
keypad-timeout code; the user-abort code maps to the keypad-cancelled code;
every other negative code maps to the generic reader error.  Totality and
the impossibility of failure are inherent in `openct_error` being a total
Lean function on `Int`. -/
theorem openct_error_translation (code : Int) :
    (0 ≤ code → openct_error code = code) ∧
    (code = IFD_ERROR_USER_TIMEOUT →
      openct_error code = SC_ERROR_KEYPAD_TIMEOUT) ∧
    (code = IFD_ERROR_USER_ABORT →
      openct_error code = SC_ERROR_KEYPAD_CANCELLED) ∧
    (code < 0 → code ≠ IFD_ERROR_USER_TIMEOUT → code ≠ IFD_ERROR_USER_ABORT →
      openct_error code = SC_ERROR_READER) := by
  refine ⟨?_, ?_, ?_, ?_⟩ <;> intros <;> unfold openct_error <;> subst_eqs
  · rw [if_pos]
    assumption
  · rw [if_neg (by unfold IFD_ERROR_USER_TIMEOUT; omega), if_pos rfl]
  · rw [if_neg (by unfold IFD_ERROR_USER_ABORT; omega),
      if_neg (by unfold IFD_ERROR_USER_ABORT IFD_ERROR_USER_TIMEOUT; omega),
      if_pos rfl]
  · rw [if_neg (by omega)]
    rw [if_neg (by assumption), if_neg (by assumption)]

/-- Witness for C8: one concrete code through each branch of the
translator. -/
theorem openct_error_translation_witness :
    openct_error 7 = 7 ∧
    openct_error IFD_ERROR_USER_TIMEOUT = SC_ERROR_KEYPAD_TIMEOUT ∧
    openct_error IFD_ERROR_USER_ABORT = SC_ERROR_KEYPAD_CANCELLED ∧
    openct_error (-1) = SC_ERROR_READER :=
  ⟨(openct_error_translation 7).1 (by decide),
   (openct_error_translation IFD_ERROR_USER_TIMEOUT).2.1 rfl,
   (openct_error_translation IFD_ERROR_USER_ABORT).2.2.1 rfl,
   (openct_error_translation (-1)).2.2.2 (by decide) (by decide) (by decide)⟩

/-- C9: whenever the transport's unlock primitive reports the "not
connected" sentinel, `openct_reader_unlock` returns plain success `0`. -/
theorem openct_reader_unlock_not_connected_success (T : Transport)
    (st : DriverData) (slot : SlotInfo) (sd : SlotData)
    (hrc : T.card_unlock st.h slot.id sd.excl_lock = IFD_ERROR_NOT_CONNECTED) :
    (openct_reader_unlock T st slot sd).rc = 0 := by
  unfold openct_reader_unlock
  rw [if_pos hrc]

/-- Witness for C9: a transport whose unlock primitive reports "not
connected" (connection already torn down) still yields success. -/
theorem openct_reader_unlock_not_connected_success_witness :
    (openct_reader_unlock Tnc stDisc slot0 sd0).rc = 0 :=
  openct_reader_unlock_not_connected_success Tnc stDisc slot0 sd0 rfl

/-- C5: whenever the transport's card-transaction primitive would report
the "not connected" sentinel for the reader's live handle,
`openct_reader_transmit` tears the connection down (the stored handle
becomes the unconnected sentinel `0`) and returns the reader-detached
code.  (A live handle is exactly the situation in which the transaction
primitive is reached: without one, the hotplug check returns first.) -/
theorem openct_reader_transmit_not_connected_detaches (T : Transport)
    (st : DriverData) (slot : SlotInfo) (sendbuf recvbuf : List Nat)
    (recvsize : Nat) (hh : st.h ≠ 0)
    (hrc : (T.card_transact st.h slot.id sendbuf recvsize).1 =
      IFD_ERROR_NOT_CONNECTED) :
    (openct_reader_transmit T st slot sendbuf recvbuf recvsize).rc =
      SC_ERROR_READER_DETACHED ∧
    (openct_reader_transmit T st slot sendbuf recvbuf recvsize).st.h = 0 := by
  unfold openct_reader_transmit
  rw [reconnect_noop T st slot hh]
  simp [hrc]

/-- Witness for C5: the all-"not connected" transport makes a connected
reader's transmit detach and clear the handle. -/
theorem openct_reader_transmit_not_connected_detaches_witness :
    (openct_reader_transmit Tnc stConn slot0 [] [] 0).rc =
      SC_ERROR_READER_DETACHED ∧
    (openct_reader_transmit Tnc stConn slot0 [] [] 0).st.h = 0 :=
  openct_reader_transmit_not_connected_detaches Tnc stConn slot0 [] [] 0
    (by decide) (by decide)

/-- C10: `openct_reader_unlock` leaves the driver state (in particular the
stored connection handle) exactly as it was and issues only the unlock
transport call — it never attempts reconnection and never tears down or
replaces the handle; in contrast, `openct_reader_transmit` and
`openct_reader_lock` both attempt a connect when the handle is absent and
both clear the handle on a "not connected" response. -/
theorem openct_reader_unlock_frame (T : Transport) (st : DriverData)
    (slot : SlotInfo) (sd : SlotData) (sendbuf recvbuf : List Nat)
    (recvsize : Nat) :
    ((openct_reader_unlock T st slot sd).st = st ∧
     (openct_reader_unlock T st slot sd).calls =
       [CtCall.cardUnlock st.h slot.id]) ∧
    (st.h = 0 →
      CtCall.readerConnect st.num ∈
        (openct_reader_transmit T st slot sendbuf recvbuf recvsize).calls ∧
      CtCall.readerConnect st.num ∈
        (openct_reader_lock T st slot sd).calls) ∧
    (st.h ≠ 0 →
      ((T.card_transact st.h slot.id sendbuf recvsize).1 =
          IFD_ERROR_NOT_CONNECTED →
        (openct_reader_transmit T st slot sendbuf recvbuf recvsize).st.h = 0) ∧
      ((T.card_lock st.h slot.id IFD_LOCK_EXCLUSIVE).1 =
          IFD_ERROR_NOT_CONNECTED →
        (openct_reader_lock T st slot sd).st.h = 0)) := by
  refine ⟨⟨?_, ?_⟩, ?_, ?_⟩
  · simp only [openct_reader_unlock]
    split <;> rfl
  · simp only [openct_reader_unlock]
    split <;> rfl
  · intro hz
    have hmem := connect_calls_has_connect T st slot
    constructor
    · simp only [openct_reader_transmit]
      rw [reconnect_of_disconnected T st slot hz]
      split <;>
        simp [SC_ERROR_READER_DETACHED, SC_ERROR_READER_REATTACHED, hmem]
    · simp only [openct_reader_lock]
      rw [reconnect_of_disconnected T st slot hz]
      split <;>
        simp [SC_ERROR_READER_DETACHED, SC_ERROR_READER_REATTACHED, hmem]
  · intro hh
    constructor
    · intro hrc
      unfold openct_reader_transmit
      rw [reconnect_noop T st slot hh]
      simp [hrc]
    · intro hrc
      unfold openct_reader_lock
      rw [reconnect_noop T st slot hh]
      simp [hrc]

/-- Witness for C10: unlock on a concrete connected reader leaves the
state untouched, while lock on the same reader with a "not connected"
transport clears the handle, and transmit on a disconnected reader
attempts a connect. -/
theorem openct_reader_unlock_frame_witness :
    (openct_reader_unlock Tnc stConn slot0 sd0).st = stConn ∧
    (openct_reader_lock Tnc stConn slot0 sd0).st.h = 0 ∧
    CtCall.readerConnect stDisc.num ∈
      (openct_reader_transmit Tnc stDisc slot0 [] [] 0).calls :=
  ⟨(openct_reader_unlock_frame Tnc stConn slot0 sd0 [] [] 0).1.1,
   ((openct_reader_unlock_frame Tnc stConn slot0 sd0 [] [] 0).2.2
      (by decide)).2 (by decide),
   ((openct_reader_unlock_frame Tnc stDisc slot0 sd0 [] [] 0).2.1 rfl).1⟩

/-- C1: on a reader with a live connection handle,
`openct_reader_reconnect` performs no action (state, slot, and call trace
untouched) and returns plain success `0`; on a reader without one it
attempts a connect and returns exactly one of the reattached (connect
succeeded) or detached (connect failed) codes. -/
theorem openct_reader_reconnect_cases (T : Transport) (st : DriverData)
    (slot : SlotInfo) :
    (st.h ≠ 0 →
      openct_reader_reconnect T st slot =
        { rc := 0, st := st, slot := slot, calls := [] }) ∧
    (st.h = 0 →
      ((openct_reader_reconnect T st slot).rc = SC_ERROR_READER_REATTACHED ∨
       (openct_reader_reconnect T st slot).rc = SC_ERROR_READER_DETACHED) ∧
      ((openct_reader_reconnect T st slot).rc = SC_ERROR_READER_REATTACHED ↔
       (openct_reader_connect T st slot).rc = SC_NO_ERROR) ∧
      CtCall.readerConnect st.num ∈ (openct_reader_reconnect T st slot).calls) := by
  constructor
  · exact reconnect_noop T st slot
  · intro hz
    have hmem := connect_calls_has_connect T st slot
    have hcases := connect_rc_cases T st slot
    rw [reconnect_of_disconnected T st slot hz]
    split
    · rename_i hlt
      refine ⟨Or.inr rfl, ?_, hmem⟩
      constructor
      · intro habs
        have hne : SC_ERROR_READER_DETACHED = SC_ERROR_READER_REATTACHED := habs
        exact absurd hne (by decide)
      · intro h0
        rw [h0] at hlt
        exact absurd hlt (by decide)
    · rename_i hge
      refine ⟨Or.inl rfl, ?_, hmem⟩
      constructor
      · intro _
        rcases hcases with h | h | h
        · exact h
        · rw [h] at hge
          exact absurd (by decide) hge
        · rw [h] at hge
          exact absurd (by decide) hge
      · intro _
        rfl

/-- Witness for C1: a connected reader's reconnect is the identity with
return code 0; a disconnected reader's reconnect returns one of the
reattached/detached codes. -/
theorem openct_reader_reconnect_cases_witness :
    openct_reader_reconnect Tnc stConn slot0 =
      { rc := 0, st := stConn, slot := slot0, calls := [] } ∧
    ((openct_reader_reconnect Tre stDisc slot0).rc =
        SC_ERROR_READER_REATTACHED ∨
     (openct_reader_reconnect Tre stDisc slot0).rc =
        SC_ERROR_READER_DETACHED) :=
  ⟨(openct_reader_reconnect_cases Tnc stConn slot0).1 (by decide),
   ((openct_reader_reconnect_cases Tre stDisc slot0).2 rfl).1⟩

/-- C7: `openct_reader_connect` returns card-not-present when no transport
handle is obtained; with a handle, a negative card-request result also
yields card-not-present, a zero-length result yields the distinct generic
reader error, and a positive byte count is stored as the slot's ATR length
with the call returning plain success. -/
theorem openct_reader_connect_result_cases (T : Transport) (st : DriverData)
    (slot : SlotInfo) :
    (T.reader_connect st.num = 0 →
      (openct_reader_connect T st slot).rc = SC_ERROR_CARD_NOT_PRESENT) ∧
    (T.reader_connect st.num ≠ 0 →
      ((T.card_request (T.reader_connect st.num) slot.id).1 < 0 →
        (openct_reader_connect T st slot).rc = SC_ERROR_CARD_NOT_PRESENT) ∧
      ((T.card_request (T.reader_connect st.num) slot.id).1 = 0 →
        (openct_reader_connect T st slot).rc = SC_ERROR_READER) ∧
      (0 < (T.card_request (T.reader_connect st.num) slot.id).1 →
        (openct_reader_connect T st slot).rc = SC_NO_ERROR ∧
        (openct_reader_connect T st slot).slot.atr_len =
          (T.card_request (T.reader_connect st.num) slot.id).1.toNat)) := by
  constructor
  · intro h0
    simp only [openct_reader_connect]
    rw [if_pos h0]
  · intro h0
    refine ⟨?_, ?_, ?_⟩
    · intro h1
      simp only [openct_reader_connect]
      rw [if_neg h0, if_pos h1]
    · intro h2
      simp only [openct_reader_connect]
      rw [if_neg h0, if_neg (by omega), if_pos h2]
    · intro h3
      simp only [openct_reader_connect]
      rw [if_neg h0, if_neg (by omega), if_neg (by omega)]
      exact ⟨rfl, rfl⟩

/-- Witness for C7: a transport whose connect yields a handle and whose
card request answers 2 ATR bytes gives success with ATR length 2; one
whose connect fails gives card-not-present. -/
theorem openct_reader_connect_result_cases_witness :
    (openct_reader_connect Tre stDisc slot0).rc = SC_NO_ERROR ∧
    (openct_reader_connect Tre stDisc slot0).slot.atr_len = 2 ∧
    (openct_reader_connect Tnc stDisc slot0).rc = SC_ERROR_CARD_NOT_PRESENT :=
  ⟨(((openct_reader_connect_result_cases Tre stDisc slot0).2
      (by decide)).2.2 (by decide)).1,
   (((openct_reader_connect_result_cases Tre stDisc slot0).2
      (by decide)).2.2 (by decide)).2,
   (openct_reader_connect_result_cases Tnc stDisc slot0).1 rfl⟩

/-- Without a live handle, the hotplug check's return code is negative
(detached or reattached, both error-taxonomy codes). -/
theorem reconnect_rc_neg_of_disconnected (T : Transport) (st : DriverData)
    (slot : SlotInfo) (hz : st.h = 0) :
    (openct_reader_reconnect T st slot).rc < 0 := by
  rw [reconnect_of_disconnected T st slot hz]
  split
  · exact (by decide : SC_ERROR_READER_DETACHED < 0)
  · exact (by decide : SC_ERROR_READER_REATTACHED < 0)

/-- A fixed-length ASCII PIN policy. -/
def pin1Ascii : PinInfo :=
  { min_length := 4, max_length := 4, encoding := SC_PIN_ENCODING_ASCII,
    prompt := none, offset := 0 }

/-- A PIN policy with an encoding outside the supported {ASCII, BCD} set. -/
def pin1Bad : PinInfo :=
  { min_length := 4, max_length := 8, encoding := 7, prompt := none,
    offset := 5 }

/-- An APDU template whose data field overflows the 254-byte frame:
`4 + 1 + 250 = 255 > 254`. -/
def apduBig : ApduTemplate :=
  { cla := 0, ins := 32, p1 := 0, p2 := 0, lc := 250, data := [],
    sw1 := 0, sw2 := 0 }

/-- An APDU template whose data field fits the frame. -/
def apduSmall : ApduTemplate :=
  { cla := 0, ins := 32, p1 := 0, p2 := 0, lc := 4, data := [1, 2, 3, 4],
    sw1 := 0, sw2 := 0 }

/-- PIN command data with the oversized template and a valid encoding. -/
def infoBig : PinCmdData := { apdu := some apduBig, pin1 := pin1Ascii }

/-- PIN command data with a fitting template and an unsupported encoding. -/
def infoBadEnc : PinCmdData := { apdu := some apduSmall, pin1 := pin1Bad }

/-- PIN command data with the oversized template and an unsupported
encoding. -/
def infoBadEncBig : PinCmdData := { apdu := some apduBig, pin1 := pin1Bad }

/-- C2 counterexample: with a live handle, receive capacity 1 and a
transport that (in violation of its contract) reports 2 received bytes,
`openct_reader_transmit` returns a non-negative (success) code, reports
received length 2 larger than the capacity, and the caller's 1-byte buffer
ends up holding 2 bytes — the call does not fail. -/
theorem openct_reader_transmit_capacity_counterexample :
    0 ≤ (openct_reader_transmit Tre stConn slot0 [] [0] 1).rc ∧
    (openct_reader_transmit Tre stConn slot0 [] [0] 1).recvsize = 2 ∧
    1 < (openct_reader_transmit Tre stConn slot0 [] [0] 1).recvsize ∧
    (openct_reader_transmit Tre stConn slot0 [] [0] 1).recvbuf.length = 2 := by
  decide

/-- C2 corrected: `openct_reader_transmit` forwards `recv_capacity` to the
transport and trusts the transport's count without checking it against the
capacity; the never-write-beyond-capacity and exact-count guarantees hold
whenever the transport honors its own contract at this call (a non-negative
result equals the number of bytes written, which is at most the capacity,
and a negative result writes nothing). -/
theorem openct_reader_transmit_bounded_of_honest_transport
    (T : Transport) (st : DriverData) (slot : SlotInfo)
    (sendbuf recvbuf : List Nat) (cap : Nat)
    (hbuf : recvbuf.length = cap)
    (hok : 0 ≤ (T.card_transact st.h slot.id sendbuf cap).1 →
      (T.card_transact st.h slot.id sendbuf cap).2.length =
        (T.card_transact st.h slot.id sendbuf cap).1.toNat ∧
      (T.card_transact st.h slot.id sendbuf cap).1.toNat ≤ cap)
    (hneg : (T.card_transact st.h slot.id sendbuf cap).1 < 0 →
      (T.card_transact st.h slot.id sendbuf cap).2 = []) :
    (openct_reader_transmit T st slot sendbuf recvbuf cap).recvbuf.length
      = cap ∧
    (0 ≤ (openct_reader_transmit T st slot sendbuf recvbuf cap).rc →
      (openct_reader_transmit T st slot sendbuf recvbuf cap).recvsize =
        (T.card_transact st.h slot.id sendbuf cap).2.length ∧
      (openct_reader_transmit T st slot sendbuf recvbuf cap).recvsize ≤ cap) := by
  by_cases hh : st.h ≠ 0
  · simp only [openct_reader_transmit]
    rw [reconnect_noop T st slot hh]
    rw [if_neg (by simp)]
    dsimp only
    by_cases hnc : (T.card_transact st.h slot.id sendbuf cap).1 =
        IFD_ERROR_NOT_CONNECTED
    · rw [if_pos hnc]
      have hresp : (T.card_transact st.h slot.id sendbuf cap).2 = [] := by
        apply hneg
        rw [hnc]
        decide
      constructor
      · dsimp only
        rw [hresp]
        simpa [writeBytes] using hbuf
      · intro habs
        have habs2 : (0 : Int) ≤ SC_ERROR_READER_DETACHED := habs
        exact absurd habs2 (by decide)
    · rw [if_neg hnc]
      by_cases hpos : 0 ≤ (T.card_transact st.h slot.id sendbuf cap).1
      · obtain ⟨hlen, hle⟩ := hok hpos
        constructor
        · dsimp only
          rw [writeBytes_length]
          omega
        · intro _
          dsimp only
          rw [if_pos hpos]
          omega
      · have hresp := hneg (by omega)
        constructor
        · dsimp only
          rw [hresp]
          simpa [writeBytes] using hbuf
        · intro habs
          have hneg2 := openct_error_neg
            (show (T.card_transact st.h slot.id sendbuf cap).1 < 0 by omega)
          dsimp only at habs
          omega
  · have hz : st.h = 0 := by omega
    have hrneg := reconnect_rc_neg_of_disconnected T st slot hz
    simp only [openct_reader_transmit]
    rw [if_pos hrneg]
    refine ⟨hbuf, ?_⟩
    intro habs
    dsimp only at habs
    omega

/-- Witness for C2 (corrected): at capacity 2 the same transport is honest
and the guarantee holds. -/
theorem openct_reader_transmit_bounded_of_honest_transport_witness :
    (openct_reader_transmit Tre stConn slot0 [] [0, 0] 2).recvbuf.length
      = 2 ∧
    (0 ≤ (openct_reader_transmit Tre stConn slot0 [] [0, 0] 2).rc →
      (openct_reader_transmit Tre stConn slot0 [] [0, 0] 2).recvsize =
        (Tre.card_transact stConn.h slot0.id [] 2).2.length ∧
      (openct_reader_transmit Tre stConn slot0 [] [0, 0] 2).recvsize ≤ 2) :=
  openct_reader_transmit_bounded_of_honest_transport Tre stConn slot0 []
    [0, 0] 2 rfl (by decide) (by decide)

/-- C3 counterexample: on a disconnected reader (no live handle) with the
oversized template, `openct_reader_perform_verify` does not return
buffer-too-small: the hotplug check runs first, issues transport calls
(connect and card request) and its reattached result is returned before the
bound check is ever reached. -/
theorem perform_verify_oversize_counterexample :
    4 + 1 + apduBig.lc > 254 ∧
    (openct_reader_perform_verify Tre stDisc slot0 infoBig).rc =
      SC_ERROR_READER_REATTACHED ∧
    (openct_reader_perform_verify Tre stDisc slot0 infoBig).rc ≠
      SC_ERROR_BUFFER_TOO_SMALL ∧
    (openct_reader_perform_verify Tre stDisc slot0 infoBig).calls ≠ [] := by
  decide

/-- C3 corrected: on a reader with a live connection handle (so the hotplug
check is a pure no-op), a present APDU template whose data-field size `d`
satisfies `4 + 1 + d > 254` makes `openct_reader_perform_verify` return
buffer-too-small with no transport call issued. -/
theorem perform_verify_oversize_buffer_too_small (T : Transport)
    (st : DriverData) (slot : SlotInfo) (info : PinCmdData)
    (apdu : ApduTemplate) (hh : st.h ≠ 0) (hap : info.apdu = some apdu)
    (hlc : 4 + 1 + apdu.lc > 254) :
    (openct_reader_perform_verify T st slot info).rc =
      SC_ERROR_BUFFER_TOO_SMALL ∧
    (openct_reader_perform_verify T st slot info).calls = [] := by
  simp only [openct_reader_perform_verify]
  rw [reconnect_noop T st slot hh, hap]
  rw [if_neg (by simp)]
  dsimp only
  rw [if_pos (⟨by omega, hlc⟩ : apdu.lc ≠ 0 ∧ 4 + 1 + apdu.lc > 254)]
  exact ⟨rfl, rfl⟩

/-- Witness for C3 (corrected): the oversized template on a connected
reader yields buffer-too-small with an empty transport-call trace. -/
theorem perform_verify_oversize_buffer_too_small_witness :
    (openct_reader_perform_verify Tre stConn slot0 infoBig).rc =
      SC_ERROR_BUFFER_TOO_SMALL ∧
    (openct_reader_perform_verify Tre stConn slot0 infoBig).calls = [] :=
  perform_verify_oversize_buffer_too_small Tre stConn slot0 infoBig apduBig
    (by decide) rfl (by decide)

/-- C4 counterexample: with an unsupported PIN encoding,
`openct_reader_perform_verify` need not return invalid-arguments: on a
disconnected reader the hotplug check issues transport calls and returns
reattached first, and on a connected reader an oversized data field returns
buffer-too-small first. -/
theorem perform_verify_bad_encoding_counterexample :
    pin1Bad.encoding ≠ SC_PIN_ENCODING_ASCII ∧
    pin1Bad.encoding ≠ SC_PIN_ENCODING_BCD ∧
    (openct_reader_perform_verify Tre stDisc slot0 infoBadEnc).rc =
      SC_ERROR_READER_REATTACHED ∧
    (openct_reader_perform_verify Tre stDisc slot0 infoBadEnc).rc ≠
      SC_ERROR_INVALID_ARGUMENTS ∧
    (openct_reader_perform_verify Tre stDisc slot0 infoBadEnc).calls ≠ [] ∧
    (openct_reader_perform_verify Tre stConn slot0 infoBadEncBig).rc =
      SC_ERROR_BUFFER_TOO_SMALL := by
  decide

/-- C4 corrected: on a reader with a live connection handle and a template
whose data field fits the frame (or an absent template), an encoding outside
{ASCII, BCD} makes `openct_reader_perform_verify` return invalid-arguments
with no transport call issued — in particular the verify primitive is never
invoked. -/
theorem perform_verify_bad_encoding_invalid_arguments (T : Transport)
    (st : DriverData) (slot : SlotInfo) (info : PinCmdData)
    (hh : st.h ≠ 0)
    (hA : info.pin1.encoding ≠ SC_PIN_ENCODING_ASCII)
    (hB : info.pin1.encoding ≠ SC_PIN_ENCODING_BCD)
    (hfit : ∀ apdu, info.apdu = some apdu →
      ¬(apdu.lc ≠ 0 ∧ 4 + 1 + apdu.lc > 254)) :
    (openct_reader_perform_verify T st slot info).rc =
      SC_ERROR_INVALID_ARGUMENTS ∧
    (openct_reader_perform_verify T st slot info).calls = [] := by
  simp only [openct_reader_perform_verify]
  rw [reconnect_noop T st slot hh]
  rw [if_neg (by simp)]
  cases hap : info.apdu with
  | none => exact ⟨rfl, rfl⟩
  | some apdu =>
    dsimp only
    rw [if_neg (hfit apdu hap)]
    rw [if_neg (by
      rintro (h | h)
      · exact hA h
      · exact hB h)]
    exact ⟨rfl, rfl⟩

/-- Witness for C4 (corrected): the fitting template with encoding 7 on a
connected reader yields invalid-arguments with an empty trace. -/
theorem perform_verify_bad_encoding_invalid_arguments_witness :
    (openct_reader_perform_verify Tre stConn slot0 infoBadEnc).rc =
      SC_ERROR_INVALID_ARGUMENTS ∧
    (openct_reader_perform_verify Tre stConn slot0 infoBadEnc).calls = [] := by
  refine perform_verify_bad_encoding_invalid_arguments Tre stConn slot0
    infoBadEnc (by decide) (by decide) (by decide) ?_
  intro apdu hap
  have h1 : some apduSmall = some apdu := hap
  cases Option.some.inj h1
  decide

/-- Whether an index is attempted by the init loop depends only on the
daemon metadata and the preallocation bound, not on the allocator or the
allocation counter. -/
theorem initStep_attempted (T : Transport) (A : AllocOracle) (i k : Nat) :
    (initStep T A i k).2.2 =
      ((T.reader_info i).isSome || decide (i < PREALLOCATE)) := by
  unfold initStep
  cases T.reader_info i with
  | some info => simp
  | none => by_cases hp : i < PREALLOCATE <;> simp [hp]

/-- The attempted-index list of the init loop is independent of the
allocator and of the starting allocation counter. -/
theorem initLoop_attempted_indep (T : Transport) (A B : AllocOracle) :
    ∀ n kA kB, (initLoop T A n kA).2.1 = (initLoop T B n kB).2.1 := by
  intro n
  induction n with
  | zero =>
    intro kA kB
    rfl
  | succ n ih =>
    intro kA kB
    simp only [initLoop]
    rw [initStep_attempted T A, initStep_attempted T B, ih kA kB]

/-- C6 counterexample: with an allocator whose very first allocation fails,
the first attempted reader creation returns out-of-memory, yet
`openct_reader_init` still returns plain success (the loop discards
`openct_add_reader`'s result): the out-of-memory condition is never
surfaced to the caller of initialization, not even for the very first
allocation. -/
theorem openct_reader_init_oom_counterexample :
    allocNone.ok 0 = false ∧
    (openct_add_reader allocNone 0 0 none).1 = SC_ERROR_OUT_OF_MEMORY ∧
    (openct_reader_init Tnc allocNone).attempted ≠ [] ∧
    (openct_reader_init Tnc allocNone).rc = SC_NO_ERROR ∧
    (openct_reader_init Tnc allocNone).rc ≠ SC_ERROR_OUT_OF_MEMORY := by
  decide

/-- C6 corrected: an allocation failure while creating a reader or its
private state makes `openct_add_reader` return out-of-memory with no reader
created, and the enumeration of the remaining indices continues exactly as
with a perfect allocator, but the out-of-memory condition is never
surfaced to the caller of initialization: `openct_reader_init` always
returns plain success. -/
theorem openct_reader_init_never_oom (T : Transport) (A : AllocOracle) :
    (openct_reader_init T A).rc = SC_NO_ERROR ∧
    (openct_reader_init T A).attempted =
      (openct_reader_init T allocAllOk).attempted ∧
    (∀ k num info, (A.ok k = false ∨ A.ok (k + 1) = false) →
      (openct_add_reader A k num info).1 = SC_ERROR_OUT_OF_MEMORY ∧
      (openct_add_reader A k num info).2.1 = none) := by
  refine ⟨rfl, ?_, ?_⟩
  · simp only [openct_reader_init]
    exact initLoop_attempted_indep T A allocAllOk OPENCT_MAX_READERS 0 0
  · intro k num info hfail
    unfold openct_add_reader
    rcases hfail with hf | hf
    · rw [if_pos (by simp [hf])]
      exact ⟨rfl, rfl⟩
    · by_cases h0 : A.ok k
      · rw [if_neg (by simp [h0]), if_pos (by simp [hf])]
        exact ⟨rfl, rfl⟩
      · rw [if_pos (by simp [h0])]
        exact ⟨rfl, rfl⟩

/-- Witness for C6 (corrected): a concrete failing allocator still lets
initialization return success, while the individual reader creation
reports out-of-memory. -/
theorem openct_reader_init_never_oom_witness :
    (openct_reader_init Tre allocNone).rc = SC_NO_ERROR ∧
    (openct_add_reader allocNone 2 1 none).1 = SC_ERROR_OUT_OF_MEMORY :=
  ⟨(openct_reader_init_never_oom Tre allocNone).1,
   ((openct_reader_init_never_oom Tre allocNone).2.2 2 1 none (Or.inl rfl)).1⟩
